import Mathlib

/-!
Verification development for the explainable-vision repository.

The repository orchestrates calls into an external vision library
(OpenCV.js) over manually-released pixel buffers ("Mats").  We embed:

* `MatVal` — the value of a pixel buffer (dimensions, channel count and a
  pixel function); external library primitives whose pixel semantics the
  repository does not implement are abstracted into a `CVEnv` record of
  possibly-failing operations, while the geometric primitives
  (`cv.rotate`, `cv.flip`, `roi`) whose documented semantics the spec's
  testable properties rely on are modelled concretely.
* a value-level translation of `processImage` and the stage functions of
  src/utils/imageProcessing.ts;
* a heap-instrumented translation (`processImageSt`) tracking allocation
  and release of buffer handles, for the frame/effect claims;
* the histogram utilities (`computeHistogram`, `normalizeHistogram`) and
  the buffer-release utility (`cleanupMat`);
* the option-change effect of the App component (`runEffect`).

JavaScript numbers are modelled as `Rat` where fractional values matter
(CLAHE clip limit, thresholds, histogram normalization) and as `Nat`/`Int`
where the repository only uses integral values.  A JS falsy check
`x || d` on a numeric option is modelled as `if x = 0 then d else x`
(both `undefined` and `0` select the default).  Pixel samples are 8-bit
and modelled as `Nat`.
-/

/-- The value of a pixel buffer: row and column counts, channel count and
the pixel function (row, column, channel ↦ sample).  Only indices below
the bounds are meaningful. -/
structure MatVal where
  rows : Nat
  cols : Nat
  channels : Nat
  px : Nat → Nat → Nat → Nat

instance : Inhabited MatVal := ⟨⟨0, 0, 0, fun _ _ _ => 0⟩⟩

/-- cv.ROTATE_90_CLOCKWISE (code 0): modelled from the library's
documented semantics, dst(i,j) = src(rows−1−j, i). -/
def rot90cw (v : MatVal) : MatVal :=
  ⟨v.cols, v.rows, v.channels, fun i j k => v.px (v.rows - 1 - j) i k⟩

/-- cv.ROTATE_180 (code 1): dst(i,j) = src(rows−1−i, cols−1−j). -/
def rot180 (v : MatVal) : MatVal :=
  ⟨v.rows, v.cols, v.channels, fun i j k => v.px (v.rows - 1 - i) (v.cols - 1 - j) k⟩

/-- cv.ROTATE_90_COUNTERCLOCKWISE (code 2): dst(i,j) = src(j, cols−1−i). -/
def rot90ccw (v : MatVal) : MatVal :=
  ⟨v.cols, v.rows, v.channels, fun i j k => v.px j (v.cols - 1 - i) k⟩

/-- cv.rotate dispatch on the rotate code. -/
def cvRotate (v : MatVal) (code : Nat) : MatVal :=
  if code = 0 then rot90cw v
  else if code = 1 then rot180 v
  else if code = 2 then rot90ccw v
  else v

/-- cv.flip: code 0 flips around the x-axis (vertical), positive code
around the y-axis (horizontal), negative code around both axes.
Modelled from the library's documented semantics. -/
def cvFlip (v : MatVal) (code : Int) : MatVal :=
  if code = 0 then
    ⟨v.rows, v.cols, v.channels, fun i j k => v.px (v.rows - 1 - i) j k⟩
  else if 0 < code then
    ⟨v.rows, v.cols, v.channels, fun i j k => v.px i (v.cols - 1 - j) k⟩
  else
    ⟨v.rows, v.cols, v.channels, fun i j k => v.px (v.rows - 1 - i) (v.cols - 1 - j) k⟩

/-- applyRotation (imageProcessing.ts:59): rotate by 90/180/270 via the
corresponding rotate code; any other angle copies the source. -/
def applyRotation (v : MatVal) (angle : Int) : MatVal :=
  if angle = 90 then cvRotate v 0
  else if angle = 180 then cvRotate v 1
  else if angle = 270 then cvRotate v 2
  else v

/-- applyFlip (imageProcessing.ts:82): computes a flip code (−1 both,
1 horizontal, 0 vertical, −2 none) and flips, or copies when the code
is −2. -/
def applyFlip (v : MatVal) (horizontal vertical : Bool) : MatVal :=
  let flipCode : Int :=
    if horizontal && vertical then -1
    else if horizontal then 1
    else if vertical then 0
    else -2
  if flipCode ≠ -2 then cvFlip v flipCode else v

/-- applyCropCenter (imageProcessing.ts:109): crops the rectangle at
(⌊cols·0.25⌋, ⌊rows·0.25⌋) of size ⌊cols·0.5⌋ × ⌊rows·0.5⌋ and clones it.
For a natural n, the JS float products n·0.25 and n·0.5 are exact
(multiplication by a power of two), so ⌊n·0.25⌋ = n / 4 and
⌊n·0.5⌋ = n / 2 in natural division. -/
def applyCropCenter (v : MatVal) : MatVal :=
  ⟨v.rows / 2, v.cols / 2, v.channels,
   fun i j k => v.px (v.rows / 4 + i) (v.cols / 4 + j) k⟩

/-- Two buffer values agree in dimensions, channel count and every
in-range pixel. -/
def sameImage (a b : MatVal) : Prop :=
  a.rows = b.rows ∧ a.cols = b.cols ∧ a.channels = b.channels ∧
  ∀ i j k, i < a.rows → j < a.cols → a.px i j k = b.px i j k

/-- C3: for every input buffer and every angle in {0, 90, 180, 270},
applying applyRotation with that angle four times in succession yields a
buffer with the same dimensions and the same pixel content as the
original input. -/
theorem applyRotation_four_times_id (v : MatVal) (a : Int)
    (h : a = 0 ∨ a = 90 ∨ a = 180 ∨ a = 270) :
    sameImage (applyRotation (applyRotation (applyRotation (applyRotation v a) a) a) a) v := by
  rcases h with h | h | h | h <;> subst h
  · exact ⟨rfl, rfl, rfl, fun i j k _ _ => rfl⟩
  · refine ⟨rfl, rfl, rfl, ?_⟩
    intro i j k hi hj
    have hi2 : i < v.rows := hi
    have hj2 : j < v.cols := hj
    show v.px (v.rows - 1 - (v.rows - 1 - i)) (v.cols - 1 - (v.cols - 1 - j)) k = v.px i j k
    rw [show v.rows - 1 - (v.rows - 1 - i) = i by omega,
        show v.cols - 1 - (v.cols - 1 - j) = j by omega]
  · refine ⟨rfl, rfl, rfl, ?_⟩
    intro i j k hi hj
    have hi2 : i < v.rows := hi
    have hj2 : j < v.cols := hj
    show v.px (v.rows - 1 - (v.rows - 1 - (v.rows - 1 - (v.rows - 1 - i))))
        (v.cols - 1 - (v.cols - 1 - (v.cols - 1 - (v.cols - 1 - j)))) k = v.px i j k
    rw [show v.rows - 1 - (v.rows - 1 - (v.rows - 1 - (v.rows - 1 - i))) = i by omega,
        show v.cols - 1 - (v.cols - 1 - (v.cols - 1 - (v.cols - 1 - j))) = j by omega]
  · refine ⟨rfl, rfl, rfl, ?_⟩
    intro i j k hi hj
    have hi2 : i < v.rows := hi
    have hj2 : j < v.cols := hj
    show v.px (v.rows - 1 - (v.rows - 1 - i)) (v.cols - 1 - (v.cols - 1 - j)) k = v.px i j k
    rw [show v.rows - 1 - (v.rows - 1 - i) = i by omega,
        show v.cols - 1 - (v.cols - 1 - j) = j by omega]

/-- Concrete 2×3 single-channel buffer used by witnesses. -/
def mat23 : MatVal := ⟨2, 3, 1, fun i j _ => 10 * i + j⟩

/-- Witness for C3 at the concrete buffer mat23 and angle 90. -/
theorem applyRotation_four_times_id_witness :
    sameImage (applyRotation (applyRotation (applyRotation (applyRotation mat23 90) 90) 90) 90) mat23 :=
  applyRotation_four_times_id mat23 90 (Or.inr (Or.inl rfl))

/-- C4: for every input buffer, applyFlip with both axes set (flip code
−1) produces the same pixel grid as applyRotation with angle 180. -/
theorem applyFlip_both_eq_rotation180 (v : MatVal) :
    applyFlip v true true = applyRotation v 180 := rfl

/-- C5: applyCropCenter returns a buffer of ⌊0.5·width⌋ columns by
⌊0.5·height⌋ rows taken from the middle 50% region starting at
(⌊0.25·width⌋, ⌊0.25·height⌋). -/
theorem applyCropCenter_spec (v : MatVal) :
    (applyCropCenter v).rows = v.rows / 2 ∧
    (applyCropCenter v).cols = v.cols / 2 ∧
    (applyCropCenter v).channels = v.channels ∧
    ∀ i j k, i < v.rows / 2 → j < v.cols / 2 →
      (applyCropCenter v).px i j k = v.px (v.rows / 4 + i) (v.cols / 4 + j) k :=
  ⟨rfl, rfl, rfl, fun _ _ _ _ _ => rfl⟩

/-- Concrete 4×4 single-channel buffer used by witnesses. -/
def mat44 : MatVal := ⟨4, 4, 1, fun i j _ => 10 * i + j⟩

/-- Witness for C5 at the concrete buffer mat44. -/
theorem applyCropCenter_spec_witness :
    (applyCropCenter mat44).rows = 2 ∧
    (applyCropCenter mat44).cols = 2 ∧
    (applyCropCenter mat44).channels = 1 ∧
    (applyCropCenter mat44).px 0 1 0 = mat44.px 1 2 0 := by
  have h := applyCropCenter_spec mat44
  exact ⟨h.1, h.2.1, h.2.2.1, h.2.2.2 0 1 0 (by decide) (by decide)⟩

/-- Abstract interface of the external vision library (OpenCV.js).  The
repository only orchestrates these operations; their pixel semantics
live in the external WASM build, so each is a possibly-failing function
on buffer values.  claheApply stands for createCLAHE(...).apply and
claheCtorApply for `new CLAHE(...)` followed by apply (a failure of
either construction or application surfaces as an error value). -/
structure CVEnv where
  rgb2gray : MatVal → Except String MatVal
  rgba2gray : MatVal → Except String MatVal
  gray2rgb : MatVal → Except String MatVal
  rgb2ycrcb : MatVal → Except String MatVal
  ycrcb2rgb : MatVal → Except String MatVal
  equalizeHist : MatVal → Except String MatVal
  hasCreateCLAHE : Bool
  hasCtorCLAHE : Bool
  claheApply : Rat → Nat → MatVal → Except String MatVal
  claheCtorApply : Rat → Nat → MatVal → Except String MatVal
  resizeOp : Nat → Nat → MatVal → Except String MatVal
  gaussianBlurOp : Nat → MatVal → Except String MatVal
  avgBlurOp : Nat → MatVal → Except String MatVal
  sharpenFilter : MatVal → Except String MatVal
  sobelMagnitude : MatVal → Except String MatVal
  cannyOp : Rat → Rat → MatVal → Except String MatVal

/-- cv.split followed by get(k): channel k of a buffer as a 1-channel
buffer (standard library semantics). -/
def extractChannel (v : MatVal) (k : Nat) : MatVal :=
  ⟨v.rows, v.cols, 1, fun i j _ => v.px i j k⟩

/-- Replacing channel k of a buffer by a 1-channel buffer and merging
back (channels.set(k, c) followed by cv.merge). -/
def setChannel (v : MatVal) (k : Nat) (c : MatVal) : MatVal :=
  ⟨v.rows, v.cols, v.channels, fun i j t => if t = k then c.px i j 0 else v.px i j t⟩

/-- cv.merge of a list of 1-channel buffers (used by the per-channel
equalization fallback of applyCLAHE). -/
def mergeChannels (ls : List MatVal) : MatVal :=
  ⟨(ls.headD default).rows, (ls.headD default).cols, ls.length,
   fun i j k => (ls.getD k default).px i j 0⟩

/-- convertToGrayscale (imageProcessing.ts:136): RGBA2GRAY on 4 channels,
RGB2GRAY on 3, otherwise a plain copy. -/
def convertToGrayscale (env : CVEnv) (v : MatVal) : Except String MatVal :=
  if v.channels = 4 then env.rgba2gray v
  else if v.channels = 3 then env.rgb2gray v
  else .ok v

/-- applyHistogramEqualization (imageProcessing.ts:149). -/
def applyHistogramEqualization (env : CVEnv) (v : MatVal) : Except String MatVal :=
  env.equalizeHist v

/-- applyResize (imageProcessing.ts:127). -/
def applyResize (env : CVEnv) (width height : Nat) (v : MatVal) : Except String MatVal :=
  env.resizeOp width height v

/-- The fallback of applyCLAHE when no CLAHE implementation is available:
global equalization on a 1-channel buffer, per-channel equalization and
merge otherwise (imageProcessing.ts:189-217). -/
def claheFallback (env : CVEnv) (v : MatVal) : Except String MatVal :=
  if v.channels = 1 then env.equalizeHist v
  else do
    let eqs ← ((List.range v.channels).map (extractChannel v)).mapM env.equalizeHist
    pure (mergeChannels eqs)

/-- applyCLAHE (imageProcessing.ts:156): use createCLAHE when present,
else the CLAHE constructor (falling back when it fails or produces an
empty result), else the equalization fallback. -/
def applyCLAHE (env : CVEnv) (clipLimit : Rat) (tileSize : Nat) (v : MatVal) :
    Except String MatVal :=
  if env.hasCreateCLAHE then env.claheApply clipLimit tileSize v
  else if env.hasCtorCLAHE then
    match env.claheCtorApply clipLimit tileSize v with
    | .ok w => if w.rows ≠ 0 ∧ w.cols ≠ 0 then .ok w else claheFallback env v
    | .error _ => claheFallback env v
  else claheFallback env v

/-- applyCLAHEToColor (imageProcessing.ts:220): convert to YCrCb, enhance
the luminance channel (CLAHE when available, with global equalization as
fallback), recombine and convert back to RGB. -/
def applyCLAHEToColor (env : CVEnv) (clipLimit : Rat) (tileSize : Nat) (v : MatVal) :
    Except String MatVal :=
  env.rgb2ycrcb v >>= fun ycrcb =>
  let yChannel := extractChannel ycrcb 0
  if env.hasCreateCLAHE then
    env.claheApply clipLimit tileSize yChannel >>= fun enhancedY =>
    env.ycrcb2rgb (setChannel ycrcb 0 enhancedY)
  else if env.hasCtorCLAHE then
    match env.claheCtorApply clipLimit tileSize yChannel with
    | .ok enhancedY => env.ycrcb2rgb (setChannel ycrcb 0 enhancedY)
    | .error _ =>
      env.equalizeHist yChannel >>= fun equalizedY =>
      env.ycrcb2rgb (setChannel ycrcb 0 equalizedY)
  else
    env.equalizeHist yChannel >>= fun equalizedY =>
    env.ycrcb2rgb (setChannel ycrcb 0 equalizedY)

/-- applyGaussianBlur (imageProcessing.ts:286). -/
def applyGaussianBlur (env : CVEnv) (kernelSize : Nat) (v : MatVal) : Except String MatVal :=
  env.gaussianBlurOp kernelSize v

/-- applyAverageBlur (imageProcessing.ts:294). -/
def applyAverageBlur (env : CVEnv) (kernelSize : Nat) (v : MatVal) : Except String MatVal :=
  env.avgBlurOp kernelSize v

/-- applySharpen (imageProcessing.ts:302): filter2D with the fixed 3×3
sharpening kernel. -/
def applySharpen (env : CVEnv) (v : MatVal) : Except String MatVal :=
  env.sharpenFilter v

/-- applySobelEdges (imageProcessing.ts:315): grayscale if needed, then
the Sobel x/y gradients combined by equal-weighted absolute sum. -/
def applySobelEdges (env : CVEnv) (v : MatVal) : Except String MatVal :=
  (if v.channels = 1 then .ok v else convertToGrayscale env v) >>= env.sobelMagnitude

/-- applyCannyEdges (imageProcessing.ts:344). -/
def applyCannyEdges (env : CVEnv) (t1 t2 : Rat) (v : MatVal) : Except String MatVal :=
  (if v.channels = 1 then .ok v else convertToGrayscale env v) >>= env.cannyOp t1 t2

/-- ProcessingOptions (imageProcessing.ts:6).  Optional numeric fields
use 0 as the absent value: the pipeline reads each of them through a JS
falsy check (x || default), which treats undefined and 0 identically.
rotation is read through a truthiness test, which treats undefined and
0 identically as well. -/
structure ProcessingOptions where
  grayscale : Bool := false
  histogramEqualization : Bool := false
  clahe : Bool := false
  claheClipLimit : Rat := 0
  claheTileSize : Nat := 0
  colorClahe : Bool := false
  gaussianBlur : Bool := false
  gaussianKernelSize : Nat := 0
  averageBlur : Bool := false
  averageKernelSize : Nat := 0
  sharpen : Bool := false
  sobelEdges : Bool := false
  cannyEdges : Bool := false
  cannyThreshold1 : Rat := 0
  cannyThreshold2 : Rat := 0
  rotation : Int := 0
  flipHorizontal : Bool := false
  flipVertical : Bool := false
  cropCenter : Bool := false
  resize : Option (Nat × Nat) := none

/-- options.claheClipLimit || 2.0. -/
def effClip (o : ProcessingOptions) : Rat := if o.claheClipLimit = 0 then 2 else o.claheClipLimit

/-- options.claheTileSize || 8. -/
def effTile (o : ProcessingOptions) : Nat := if o.claheTileSize = 0 then 8 else o.claheTileSize

/-- options.gaussianKernelSize || 5. -/
def effGaussK (o : ProcessingOptions) : Nat :=
  if o.gaussianKernelSize = 0 then 5 else o.gaussianKernelSize

/-- options.averageKernelSize || 5. -/
def effAvgK (o : ProcessingOptions) : Nat :=
  if o.averageKernelSize = 0 then 5 else o.averageKernelSize

/-- options.cannyThreshold1 || 50. -/
def effT1 (o : ProcessingOptions) : Rat := if o.cannyThreshold1 = 0 then 50 else o.cannyThreshold1

/-- options.cannyThreshold2 || 150. -/
def effT2 (o : ProcessingOptions) : Rat := if o.cannyThreshold2 = 0 then 150 else o.cannyThreshold2

/-- processImage (imageProcessing.ts:358), value level: the sequence of
buffer values computed by the pipeline (buffer bookkeeping is modelled
separately by processImageSt).  Translated directly from the source
if-chain. -/
def processImage (env : CVEnv) (o : ProcessingOptions) (src : MatVal) : Except String MatVal :=
  let r1 := if o.rotation ≠ 0 then applyRotation src o.rotation else src
  let r2 := if o.flipHorizontal || o.flipVertical then applyFlip r1 o.flipHorizontal o.flipVertical else r1
  let r3 := if o.cropCenter then applyCropCenter r2 else r2
  (match o.resize with
   | some wh => applyResize env wh.1 wh.2 r3
   | none => .ok r3) >>= fun r4 =>
  (if o.colorClahe then
    (if r4.channels = 1 then env.gray2rgb r4 else .ok r4) >>= fun c =>
      applyCLAHEToColor env (effClip o) (effTile o) c
   else if o.clahe then
    (if 1 < r4.channels then convertToGrayscale env r4 else .ok r4) >>= fun g =>
      applyCLAHE env (effClip o) (effTile o) g
   else if o.histogramEqualization then
    (if 1 < r4.channels then convertToGrayscale env r4 else .ok r4) >>= fun g =>
      applyHistogramEqualization env g
   else if o.grayscale then
    (if 1 < r4.channels then convertToGrayscale env r4 else .ok r4)
   else .ok r4) >>= fun r5 =>
  (if o.gaussianBlur then applyGaussianBlur env (effGaussK o) r5 else .ok r5) >>= fun r6 =>
  (if o.averageBlur then applyAverageBlur env (effAvgK o) r6 else .ok r6) >>= fun r7 =>
  (if o.sharpen then applySharpen env r7 else .ok r7) >>= fun r8 =>
  (if o.sobelEdges then applySobelEdges env r8 else .ok r8) >>= fun r9 =>
  (if o.cannyEdges then applyCannyEdges env (effT1 o) (effT2 o) r9 else .ok r9)

/-- The geometric section of the pipeline (rotation, flip, center crop,
resize), as in processImage lines 366-390. -/
def geomPart (env : CVEnv) (o : ProcessingOptions) (src : MatVal) : Except String MatVal :=
  let r1 := if o.rotation ≠ 0 then applyRotation src o.rotation else src
  let r2 := if o.flipHorizontal || o.flipVertical then applyFlip r1 o.flipHorizontal o.flipVertical else r1
  let r3 := if o.cropCenter then applyCropCenter r2 else r2
  match o.resize with
  | some wh => applyResize env wh.1 wh.2 r3
  | none => .ok r3

/-- The trailing section of the pipeline (blurs, sharpen, edges), as in
processImage lines 439-471. -/
def postPart (env : CVEnv) (o : ProcessingOptions) (r5 : MatVal) : Except String MatVal :=
  (if o.gaussianBlur then applyGaussianBlur env (effGaussK o) r5 else .ok r5) >>= fun r6 =>
  (if o.averageBlur then applyAverageBlur env (effAvgK o) r6 else .ok r6) >>= fun r7 =>
  (if o.sharpen then applySharpen env r7 else .ok r7) >>= fun r8 =>
  (if o.sobelEdges then applySobelEdges env r8 else .ok r8) >>= fun r9 =>
  (if o.cannyEdges then applyCannyEdges env (effT1 o) (effT2 o) r9 else .ok r9)

/-- Modelled from the spec: the contrast/equalization stage applies
exactly one transformation, chosen by priority colorClahe > clahe >
histogramEqualization > grayscale; color CLAHE first promotes a
1-channel intermediate to 3-channel RGB, grayscale CLAHE and global
equalization first demote a multi-channel intermediate to grayscale,
and a lone grayscale request converts a multi-channel intermediate to
grayscale. -/
def contrastChoiceSpec (env : CVEnv) (o : ProcessingOptions) (v : MatVal) :
    Except String MatVal :=
  if o.colorClahe then
    (if v.channels = 1 then env.gray2rgb v else .ok v) >>= fun c =>
      applyCLAHEToColor env (effClip o) (effTile o) c
  else if o.clahe then
    (if 1 < v.channels then convertToGrayscale env v else .ok v) >>= fun g =>
      applyCLAHE env (effClip o) (effTile o) g
  else if o.histogramEqualization then
    (if 1 < v.channels then convertToGrayscale env v else .ok v) >>= fun g =>
      applyHistogramEqualization env g
  else if o.grayscale then
    (if 1 < v.channels then convertToGrayscale env v else .ok v)
  else .ok v

/-- C2: for every environment, options record and buffer, processImage is
the geometric section followed by exactly one contrast/equalization
transformation chosen by the spec priority (colorClahe > clahe >
histogramEqualization > grayscale, with the promote/demote conversions),
followed by the trailing section. -/
theorem processImage_contrast_priority (env : CVEnv) (o : ProcessingOptions) (src : MatVal) :
    processImage env o src =
      geomPart env o src >>= fun r4 =>
      contrastChoiceSpec env o r4 >>= fun r5 =>
      postPart env o r5 := rfl

/-- Modelled from the spec: the reference computation for color CLAHE
without adaptive-equalization support — convert RGB to YCrCb, apply
plain global histogram equalization to the luminance channel only,
recombine the channels and convert back to RGB. -/
def luminanceEqualizeRef (env : CVEnv) (v : MatVal) : Except String MatVal :=
  env.rgb2ycrcb v >>= fun ycrcb =>
  env.equalizeHist (extractChannel ycrcb 0) >>= fun equalizedY =>
  env.ycrcb2rgb (setChannel ycrcb 0 equalizedY)

/-- C8: when the vision library exposes neither createCLAHE nor a CLAHE
constructor, applyCLAHEToColor on a 3-channel input equals the reference
computation that equalizes the luminance channel through the same YCrCb
round trip. -/
theorem applyCLAHEToColor_fallback_eq_ref (env : CVEnv) (clip : Rat) (tile : Nat)
    (v : MatVal) (hcr : env.hasCreateCLAHE = false) (hct : env.hasCtorCLAHE = false)
    (hch : v.channels = 3) :
    applyCLAHEToColor env clip tile v = luminanceEqualizeRef env v := by
  unfold applyCLAHEToColor luminanceEqualizeRef
  rw [hcr, hct]
  simp

/-- Environment without CLAHE support whose remaining operations succeed
with the input unchanged; used by witnesses. -/
def plainEnv : CVEnv where
  rgb2gray := fun v => .ok v
  rgba2gray := fun v => .ok v
  gray2rgb := fun v => .ok v
  rgb2ycrcb := fun v => .ok v
  ycrcb2rgb := fun v => .ok v
  equalizeHist := fun v => .ok v
  hasCreateCLAHE := false
  hasCtorCLAHE := false
  claheApply := fun _ _ v => .ok v
  claheCtorApply := fun _ _ v => .ok v
  resizeOp := fun _ _ v => .ok v
  gaussianBlurOp := fun _ v => .ok v
  avgBlurOp := fun _ v => .ok v
  sharpenFilter := fun v => .ok v
  sobelMagnitude := fun v => .ok v
  cannyOp := fun _ _ v => .ok v

/-- Concrete 2×2 3-channel buffer used by witnesses. -/
def mat3ch : MatVal := ⟨2, 2, 3, fun i j k => i + j + k⟩

/-- Witness for C8 at a concrete CLAHE-free environment and 3-channel
buffer. -/
theorem applyCLAHEToColor_fallback_eq_ref_witness :
    applyCLAHEToColor plainEnv 2 8 mat3ch = luminanceEqualizeRef plainEnv mat3ch :=
  applyCLAHEToColor_fallback_eq_ref plainEnv 2 8 mat3ch rfl rfl rfl

/-- HistogramData (histogram utility): optional per-channel 256-bin
frequency arrays. -/
structure HistogramData where
  red : Option (List Nat) := none
  green : Option (List Nat) := none
  blue : Option (List Nat) := none
  gray : Option (List Nat) := none
deriving DecidableEq

/-- cv.calcHist on channel k of a buffer with 256 bins over [0, 256):
bin v counts the pixels of channel k with value v. -/
def histChannel (m : MatVal) (k : Nat) : List Nat :=
  (List.range 256).map fun v =>
    ((List.range m.rows).map fun i =>
      ((List.range m.cols).filter fun j => m.px i j k = v).length).sum

/-- computeHistogram (histogram utility, part_000:8): a gray histogram
for 1-channel buffers, red/green/blue histograms of the first three
channels for buffers with 3 or more channels, and an empty record
otherwise. -/
def computeHistogram (m : MatVal) : HistogramData :=
  if m.channels = 1 then { gray := some (histChannel m 0) }
  else if 3 ≤ m.channels then
    { red := some (histChannel m 0), green := some (histChannel m 1),
      blue := some (histChannel m 2) }
  else {}

/-- C10: for every buffer with exactly 2 channels, computeHistogram
returns the empty record: neither gray nor red/green/blue is present. -/
theorem computeHistogram_two_channels_empty (m : MatVal) (h : m.channels = 2) :
    computeHistogram m = {} := by
  unfold computeHistogram
  rw [h]
  norm_num

/-- Concrete 2-channel buffer used by witnesses. -/
def mat2ch : MatVal := ⟨2, 2, 2, fun i j k => i + j + k⟩

/-- Witness for C10 at a concrete 2-channel buffer. -/
theorem computeHistogram_two_channels_empty_witness :
    computeHistogram mat2ch = {} :=
  computeHistogram_two_channels_empty mat2ch rfl

/-- normalizeHistogram (histogram utility, part_000:75): divide every
bin by the maximum bin value, returning the input unchanged when the
maximum is 0 (for the empty array, the JS maximum is −∞ ≠ 0 and the
mapped array is again empty, i.e. the input). -/
def normalizeHistogram (histData : List Rat) : List Rat :=
  match histData.max? with
  | none => histData
  | some m => if m = 0 then histData else histData.map fun val => val / m

/-- The JS maximum of a nonempty list is a member and an upper bound. -/
theorem max?_spec (l : List Rat) (m : Rat) (h : l.max? = some m) :
    m ∈ l ∧ ∀ x ∈ l, x ≤ m := by
  constructor
  · exact List.max?_mem (fun a b => max_choice a b) h
  · intro x hx
    exact (List.max?_le_iff (fun a b c => max_le_iff) h).1 le_rfl x hx

/-- C7: for every frequency array of non-negative entries, if the
maximum bin value is strictly positive then every normalized entry lies
in [0,1] and some entry equals exactly 1; if the maximum is 0 the input
is returned unchanged. -/
theorem normalizeHistogram_spec (l : List Rat) (hnn : ∀ x ∈ l, 0 ≤ x) :
    (∀ m, l.max? = some m → 0 < m →
      (∀ y ∈ normalizeHistogram l, 0 ≤ y ∧ y ≤ 1) ∧ (1 : Rat) ∈ normalizeHistogram l) ∧
    (∀ m, l.max? = some m → m = 0 → normalizeHistogram l = l) := by
  constructor
  · intro m hm hpos
    obtain ⟨hmem, hub⟩ := max?_spec l m hm
    have hne : m ≠ 0 := ne_of_gt hpos
    have hnorm : normalizeHistogram l = l.map fun val => val / m := by
      unfold normalizeHistogram
      rw [hm]
      simp [hne]
    constructor
    · intro y hy
      rw [hnorm] at hy
      obtain ⟨x, hx, rfl⟩ := List.mem_map.1 hy
      exact ⟨div_nonneg (hnn x hx) (le_of_lt hpos), (div_le_one hpos).2 (hub x hx)⟩
    · rw [hnorm]
      exact List.mem_map.2 ⟨m, hmem, div_self hne⟩
  · intro m hm hz
    unfold normalizeHistogram
    rw [hm]
    simp [hz]

/-- Witness for C7 at the concrete array [1, 2]. -/
theorem normalizeHistogram_spec_witness :
    (∀ y ∈ normalizeHistogram [(1 : Rat), 2], 0 ≤ y ∧ y ≤ 1) ∧
    (1 : Rat) ∈ normalizeHistogram [(1 : Rat), 2] :=
  (normalizeHistogram_spec [(1 : Rat), 2] (by norm_num)).1 2 (by rfl) (by norm_num)

/-- A JS-visible buffer object as seen by cleanupMat: its heap handle
and which of the optional methods (isDeleted, delete) exist on it. -/
structure JsMat where
  id : Nat
  hasIsDeleted : Bool
  hasDelete : Bool

/-- Liveness store for native buffers. -/
structure MatHeap where
  alive : Nat → Bool

/-- The underlying delete of the vision runtime: frees a live buffer and
throws on an already-freed one. -/
def deleteRaw (h : MatHeap) (i : Nat) : Except Unit MatHeap :=
  if h.alive i then .ok ⟨fun j => if j = i then false else h.alive j⟩ else .error ()

/-- The body of one cleanupMat iteration before its try/catch
(imageProcessing.ts:482-490): skip null, use isDeleted when available to
delete only live buffers, otherwise attempt delete directly. -/
def cleanupOneBody (h : MatHeap) (m : Option JsMat) : Except Unit MatHeap :=
  match m with
  | none => .ok h
  | some mat =>
    if mat.hasIsDeleted then
      if h.alive mat.id then deleteRaw h mat.id else .ok h
    else if mat.hasDelete then deleteRaw h mat.id
    else .ok h

/-- One cleanupMat iteration with its catch: deletion errors are
swallowed and the heap is left as it was. -/
def cleanupOne (h : MatHeap) (m : Option JsMat) : MatHeap :=
  match cleanupOneBody h m with
  | .ok h2 => h2
  | .error _ => h

/-- cleanupMat (imageProcessing.ts:481): best-effort release of every
argument. -/
def cleanupMat (h : MatHeap) (mats : List (Option JsMat)) : MatHeap :=
  mats.foldl cleanupOne h

/-- Normal form of one cleanup iteration: a buffer is freed exactly when
it is live and exposes a way to delete it; otherwise (null handled by
the caller pattern match) the heap is untouched, any raised error being
swallowed. -/
theorem cleanupOne_norm (h : MatHeap) (m : JsMat) :
    cleanupOne h (some m) =
      if h.alive m.id && (m.hasIsDeleted || m.hasDelete) then
        ⟨fun j => if j = m.id then false else h.alive j⟩
      else h := by
  unfold cleanupOne cleanupOneBody deleteRaw
  cases hi : m.hasIsDeleted <;> cases hd : m.hasDelete <;> cases hl : h.alive m.id <;>
    simp [hi, hd, hl]

/-- C6: cleanupMat never deletes through a null argument, is a no-op on
an already-released buffer, is idempotent on any buffer, and swallows
the error that the underlying delete raises when a buffer without an
isDeleted method is released twice. -/
theorem cleanupMat_contract (h : MatHeap) (m : JsMat) (mats : List (Option JsMat)) :
    cleanupMat h (none :: mats) = cleanupMat h mats ∧
    (h.alive m.id = false → cleanupOne h (some m) = h) ∧
    cleanupOne (cleanupOne h (some m)) (some m) = cleanupOne h (some m) ∧
    (m.hasIsDeleted = false → m.hasDelete = true → h.alive m.id = false →
      cleanupOneBody h (some m) = .error () ∧ cleanupOne h (some m) = h) := by
  refine ⟨rfl, ?_, ?_, ?_⟩
  · intro hd
    rw [cleanupOne_norm, hd]
    simp
  · rw [cleanupOne_norm, cleanupOne_norm]
    cases hl : h.alive m.id <;> cases hany : (m.hasIsDeleted || m.hasDelete) <;>
      simp [hl, hany]
  · intro hi hdel hdead
    constructor
    · unfold cleanupOneBody deleteRaw
      simp [hi, hdel, hdead]
    · rw [cleanupOne_norm, hdead]
      simp

/-- Heap with exactly buffer 0 live; used by witnesses. -/
def heapA : MatHeap := ⟨fun i => i == 0⟩

/-- An already-released buffer object exposing delete but not isDeleted;
used by witnesses. -/
def deadMat : JsMat := ⟨1, false, true⟩

/-- Witness for C6: releasing the already-released deadMat in heapA
leaves the heap unchanged although the underlying delete raised. -/
theorem cleanupMat_contract_witness :
    cleanupOne heapA (some deadMat) = heapA ∧
    cleanupOneBody heapA (some deadMat) = .error () := by
  have hc := cleanupMat_contract heapA deadMat []
  exact ⟨hc.2.1 rfl, (hc.2.2.2 rfl rfl rfl).1⟩

/-- Allocation store for pipeline buffers: a bump allocator with a
liveness flag and the stored value of every allocated handle. -/
structure St where
  next : Nat
  alive : Nat → Bool
  val : Nat → MatVal

/-- new cv.Mat populated with value w: returns the fresh handle s.next. -/
def alloc (s : St) (w : MatVal) : St :=
  ⟨s.next + 1,
   fun i => if i = s.next then true else s.alive i,
   fun i => if i = s.next then w else s.val i⟩

/-- mat.delete() on handle r. -/
def kill (s : St) (r : Nat) : St :=
  ⟨s.next, fun i => if i = r then false else s.alive i, s.val⟩

/-- The replace-and-release pattern of every pipeline stage
(processImage lines 367-471): when the stage is enabled for the current
buffer, compute the new value, allocate it as a fresh buffer, release
the previous intermediate and continue with the fresh handle; a stage
failure propagates and leaves the current intermediate unreleased.
Internal temporaries of the stage functions (all released before they
return) are elided: the store tracks the net allocations. -/
def stage (cond : MatVal → Bool) (f : MatVal → Except String MatVal)
    (p : Except String Nat × St) : Except String Nat × St :=
  match p with
  | (.error e, s) => (.error e, s)
  | (.ok r, s) =>
    if cond (s.val r) then
      match f (s.val r) with
      | .error e => (.error e, s)
      | .ok w => (.ok s.next, kill (alloc s w) r)
    else (.ok r, s)

/-- The resize stage: runs exactly when options.resize is set. -/
def resizeStageSt (env : CVEnv) (ro : Option (Nat × Nat))
    (p : Except String Nat × St) : Except String Nat × St :=
  match ro with
  | some wh => stage (fun _ => true) (applyResize env wh.1 wh.2) p
  | none => p

/-- The geometric section of the pipeline on the buffer store
(processImage lines 366-390). -/
def geomStagesSt (env : CVEnv) (o : ProcessingOptions)
    (p : Except String Nat × St) : Except String Nat × St :=
  resizeStageSt env o.resize
    (stage (fun _ => o.cropCenter) (fun v => .ok (applyCropCenter v))
      (stage (fun _ => o.flipHorizontal || o.flipVertical)
        (fun v => .ok (applyFlip v o.flipHorizontal o.flipVertical))
        (stage (fun _ => o.rotation != 0) (fun v => .ok (applyRotation v o.rotation)) p)))

/-- The contrast/equalization section of the pipeline on the buffer
store (processImage lines 392-437). -/
def contrastStageSt (env : CVEnv) (o : ProcessingOptions)
    (p : Except String Nat × St) : Except String Nat × St :=
  if o.colorClahe then
    stage (fun _ => true) (applyCLAHEToColor env (effClip o) (effTile o))
      (stage (fun v => v.channels == 1) env.gray2rgb p)
  else if o.clahe then
    stage (fun _ => true) (applyCLAHE env (effClip o) (effTile o))
      (stage (fun v => decide (1 < v.channels)) (convertToGrayscale env) p)
  else if o.histogramEqualization then
    stage (fun _ => true) (applyHistogramEqualization env)
      (stage (fun v => decide (1 < v.channels)) (convertToGrayscale env) p)
  else if o.grayscale then
    stage (fun v => decide (1 < v.channels)) (convertToGrayscale env) p
  else p

/-- The trailing section of the pipeline on the buffer store
(processImage lines 439-471). -/
def postStagesSt (env : CVEnv) (o : ProcessingOptions)
    (p : Except String Nat × St) : Except String Nat × St :=
  stage (fun _ => o.cannyEdges) (applyCannyEdges env (effT1 o) (effT2 o))
    (stage (fun _ => o.sobelEdges) (applySobelEdges env)
      (stage (fun _ => o.sharpen) (applySharpen env)
        (stage (fun _ => o.averageBlur) (applyAverageBlur env (effAvgK o))
          (stage (fun _ => o.gaussianBlur) (applyGaussianBlur env (effGaussK o)) p))))

/-- processImage (imageProcessing.ts:358) on the buffer store: copy the
source into a fresh buffer, then run the three pipeline sections with
the replace-and-release discipline.  Returns the final handle (or the
propagated stage error) together with the final store. -/
def processImageSt (env : CVEnv) (o : ProcessingOptions) (src : Nat) (s : St) :
    Except String Nat × St :=
  postStagesSt env o (contrastStageSt env o (geomStagesSt env o
    (.ok s.next, alloc s (s.val src))))

/-- Store invariant of a pipeline run started from store s0: handles
below s0.next keep their liveness and value, the allocator only grows,
and on success the current intermediate is a live handle allocated by
the run. -/
def HeapInv (s0 : St) (p : Except String Nat × St) : Prop :=
  s0.next ≤ p.2.next ∧
  (∀ i, i < s0.next → p.2.alive i = s0.alive i ∧ p.2.val i = s0.val i) ∧
  ∀ t, p.1 = .ok t → s0.next ≤ t ∧ t < p.2.next ∧ p.2.alive t = true

theorem stage_heapInv {s0 : St} {p : Except String Nat × St}
    (cond : MatVal → Bool) (f : MatVal → Except String MatVal)
    (hp : HeapInv s0 p) : HeapInv s0 (stage cond f p) := by
  obtain ⟨r, s⟩ := p
  obtain ⟨hnext, hlow, hok⟩ := hp
  dsimp only at hnext hlow hok
  cases r with
  | error e => exact ⟨hnext, hlow, by intro t ht; cases ht⟩
  | ok r =>
    obtain ⟨hr1, hr2, hr3⟩ := hok r rfl
    dsimp only [stage]
    by_cases hc : cond (s.val r) = true
    · rw [if_pos hc]
      cases hf : f (s.val r) with
      | error e => exact ⟨hnext, hlow, by intro t ht; cases ht⟩
      | ok w =>
        refine ⟨by simp [kill, alloc]; omega, ?_, ?_⟩
        · intro i hi
          have hir : i ≠ r := by omega
          have hin : i ≠ s.next := by omega
          simp [kill, alloc, hir, hin]
          exact hlow i hi
        · intro t ht
          cases ht
          have hrn : s.next ≠ r := by omega
          simp [kill, alloc, hrn]
          omega
    · rw [if_neg hc]
      exact ⟨hnext, hlow, hok⟩

theorem resizeStageSt_heapInv {s0 : St} {p : Except String Nat × St}
    (env : CVEnv) (ro : Option (Nat × Nat)) (hp : HeapInv s0 p) :
    HeapInv s0 (resizeStageSt env ro p) := by
  cases ro with
  | none => exact hp
  | some wh => exact stage_heapInv _ _ hp

theorem geomStagesSt_heapInv {s0 : St} {p : Except String Nat × St}
    (env : CVEnv) (o : ProcessingOptions) (hp : HeapInv s0 p) :
    HeapInv s0 (geomStagesSt env o p) :=
  resizeStageSt_heapInv env o.resize
    (stage_heapInv _ _ (stage_heapInv _ _ (stage_heapInv _ _ hp)))

theorem contrastStageSt_heapInv {s0 : St} {p : Except String Nat × St}
    (env : CVEnv) (o : ProcessingOptions) (hp : HeapInv s0 p) :
    HeapInv s0 (contrastStageSt env o p) := by
  unfold contrastStageSt
  by_cases h1 : o.colorClahe = true
  · rw [if_pos h1]; exact stage_heapInv _ _ (stage_heapInv _ _ hp)
  rw [if_neg h1]
  by_cases h2 : o.clahe = true
  · rw [if_pos h2]; exact stage_heapInv _ _ (stage_heapInv _ _ hp)
  rw [if_neg h2]
  by_cases h3 : o.histogramEqualization = true
  · rw [if_pos h3]; exact stage_heapInv _ _ (stage_heapInv _ _ hp)
  rw [if_neg h3]
  by_cases h4 : o.grayscale = true
  · rw [if_pos h4]; exact stage_heapInv _ _ hp
  rw [if_neg h4]
  exact hp

theorem postStagesSt_heapInv {s0 : St} {p : Except String Nat × St}
    (env : CVEnv) (o : ProcessingOptions) (hp : HeapInv s0 p) :
    HeapInv s0 (postStagesSt env o p) :=
  stage_heapInv _ _ (stage_heapInv _ _ (stage_heapInv _ _ (stage_heapInv _ _
    (stage_heapInv _ _ hp))))

theorem processImageSt_heapInv (env : CVEnv) (o : ProcessingOptions) (src : Nat) (s : St) :
    HeapInv s (processImageSt env o src s) := by
  have h0 : HeapInv s (.ok s.next, alloc s (s.val src)) := by
    refine ⟨by simp [alloc], ?_, ?_⟩
    · intro i hi
      have hin : i ≠ s.next := by omega
      simp [alloc, hin]
    · intro t ht
      cases ht
      simp [alloc]
  exact postStagesSt_heapInv env o (contrastStageSt_heapInv env o
    (geomStagesSt_heapInv env o h0))

/-- C9: for every environment, options record, live source handle and
well-formed store, the pipeline neither mutates nor releases the source
buffer (its value and liveness are unchanged), and on success the
returned buffer is a freshly allocated live handle distinct from the
source, owned by the caller. -/
theorem processImage_preserves_source (env : CVEnv) (o : ProcessingOptions)
    (src : Nat) (s : St) (h : src < s.next) :
    (processImageSt env o src s).2.val src = s.val src ∧
    (processImageSt env o src s).2.alive src = s.alive src ∧
    ∀ t, (processImageSt env o src s).1 = .ok t →
      t ≠ src ∧ s.next ≤ t ∧ (processImageSt env o src s).2.alive t = true := by
  obtain ⟨hnext, hlow, hok⟩ := processImageSt_heapInv env o src s
  refine ⟨(hlow src h).2, (hlow src h).1, ?_⟩
  intro t ht
  obtain ⟨ht1, ht2, ht3⟩ := hok t ht
  exact ⟨by omega, ht1, ht3⟩

/-- Concrete 1×1 grayscale buffer value used by witnesses. -/
def grayMat1 : MatVal := ⟨1, 1, 1, fun _ _ _ => 0⟩

/-- Concrete store with handles 0 and 1 live, both holding grayMat1;
used by witnesses. -/
def stA : St := ⟨2, fun i => decide (i < 2), fun _ => grayMat1⟩

/-- Witness for C9: running the pipeline with default options from the
concrete store stA leaves source handle 0 untouched and returns the
fresh live handle 2. -/
theorem processImage_preserves_source_witness :
    (processImageSt plainEnv {} 0 stA).2.val 0 = stA.val 0 ∧
    (processImageSt plainEnv {} 0 stA).2.alive 0 = stA.alive 0 ∧
    ((2 : Nat) ≠ 0 ∧ stA.next ≤ 2 ∧ (processImageSt plainEnv {} 0 stA).2.alive 2 = true) := by
  have h := processImage_preserves_source plainEnv {} 0 stA (by decide)
  exact ⟨h.1, h.2.1, h.2.2 2 rfl⟩

/-- The React state of the App component that the option-change effect
touches: the processed buffer handle, its histogram, the user-visible
error string and the buffer store. -/
structure AppSt where
  processedMat : Option Nat
  processedHistogram : Option HistogramData
  appError : Option String
  heap : St

/-- cleanupMat on a real pipeline buffer (which has both isDeleted and
delete): release it if still live, otherwise do nothing. -/
def cleanupSt (s : St) (i : Nat) : St :=
  if s.alive i then kill s i else s

/-- The option-change effect of the App component (part_001 lines
48-65): do nothing until the runtime is loaded and a source buffer
exists; otherwise release the previous processed buffer, run the
pipeline and either publish the new buffer, its histogram and a cleared
error, or — when the pipeline throws — set only the error string. -/
def runEffect (env : CVEnv) (cvLoaded : Bool) (originalMat : Option Nat)
    (o : ProcessingOptions) (st : AppSt) : AppSt :=
  if cvLoaded then
    match originalMat with
    | none => st
    | some src =>
      let h1 := match st.processedMat with
        | some pm => cleanupSt st.heap pm
        | none => st.heap
      match processImageSt env o src h1 with
      | (.ok out, h2) =>
        ⟨some out, some (computeHistogram (h2.val out)), none, h2⟩
      | (.error e, h2) =>
        { st with heap := h2, appError := some e }
  else st

/-- Environment whose histogram equalization always throws; all other
operations succeed.  Used to exhibit a failing pipeline run. -/
def failEnv : CVEnv :=
  { plainEnv with equalizeHist := fun _ => .error "equalizeHist failed" }

/-- Options requesting only global histogram equalization. -/
def optsHE : ProcessingOptions := { histogramEqualization := true }

/-- App state before the failing run: processed buffer handle 0 and
source handle 1, both live in stA. -/
def appSt0 : AppSt := ⟨some 0, some {}, none, stA⟩

/-- Counterexample to C1 as stated: when histogram equalization throws
during the option-change effect, the error string is set and the
processed-mat reference is unchanged, but the previously displayed
processed buffer (handle 0) is NOT still held live — it was released
before the pipeline ran, so it is no longer displayable. -/
theorem effect_error_counterexample :
    (runEffect failEnv true (some 1) optsHE appSt0).appError = some "equalizeHist failed" ∧
    (runEffect failEnv true (some 1) optsHE appSt0).processedMat = some 0 ∧
    ¬ ((runEffect failEnv true (some 1) optsHE appSt0).heap.alive 0 = true) := by
  refine ⟨rfl, rfl, ?_⟩
  have hfalse : (runEffect failEnv true (some 1) optsHE appSt0).heap.alive 0 = false := rfl
  simp [hfalse]

/-- cleanupSt preserves the allocation counter. -/
theorem cleanupSt_next (s : St) (i : Nat) : (cleanupSt s i).next = s.next := by
  unfold cleanupSt
  split <;> rfl

/-- The released buffer is dead after cleanupSt. -/
theorem cleanupSt_alive_self (s : St) (i : Nat) : (cleanupSt s i).alive i = false := by
  unfold cleanupSt
  by_cases h : s.alive i = true
  · rw [if_pos h]
    simp [kill]
  · rw [if_neg h]
    simpa using h

/-- C1 amended: when the pipeline throws during an option-change run,
the processed-mat and processed-histogram state variables are left
unchanged and only the user-visible error string is set; however the
previously displayed processed buffer was already released before the
pipeline ran, so it is no longer live (hence not displayable). -/
theorem effect_error_state_preserved (env : CVEnv) (o : ProcessingOptions) (st : AppSt)
    (src pm : Nat) (e : String) (h2 : St)
    (hpm : st.processedMat = some pm) (hlt : pm < st.heap.next)
    (hrun : processImageSt env o src (cleanupSt st.heap pm) = (.error e, h2)) :
    (runEffect env true (some src) o st).processedMat = st.processedMat ∧
    (runEffect env true (some src) o st).processedHistogram = st.processedHistogram ∧
    (runEffect env true (some src) o st).appError = some e ∧
    (runEffect env true (some src) o st).heap.alive pm = false := by
  have hinv := processImageSt_heapInv env o src (cleanupSt st.heap pm)
  rw [hrun] at hinv
  obtain ⟨-, hlow, -⟩ := hinv
  have hlt2 : pm < (cleanupSt st.heap pm).next := by rw [cleanupSt_next]; exact hlt
  have h2dead : h2.alive pm = false := by
    have hh := (hlow pm hlt2).1
    dsimp only at hh
    rw [hh, cleanupSt_alive_self]
  simp only [runEffect, hpm, if_pos rfl]
  rw [hrun]
  exact ⟨rfl, rfl, rfl, h2dead⟩

/-- Witness for the amended C1 at the concrete failing run. -/
theorem effect_error_state_preserved_witness :
    (runEffect failEnv true (some 1) optsHE appSt0).processedMat = appSt0.processedMat ∧
    (runEffect failEnv true (some 1) optsHE appSt0).processedHistogram = appSt0.processedHistogram ∧
    (runEffect failEnv true (some 1) optsHE appSt0).appError = some "equalizeHist failed" ∧
    (runEffect failEnv true (some 1) optsHE appSt0).heap.alive 0 = false :=
  effect_error_state_preserved failEnv optsHE appSt0 1 0 "equalizeHist failed"
    (processImageSt failEnv optsHE 1 (cleanupSt appSt0.heap 0)).2 rfl (by decide) rfl
